import Mathlib

/-!
Verification development for the HoLA agent WebSocket subsystem
(package `internal/ws`: handler.go, eventhub.go, streams.go).

The Go source is shallowly embedded:
* Go maps (`map[string]context.CancelFunc`, `map[*client]subscriber`)
  become association lists with unique keys by construction.
* `context.CancelFunc` values and `*client` pointers become natural-number
  identifiers; a set of cancelled context identifiers is threaded through
  the state.
* `uint64` arithmetic is modelled on `Nat` with explicit wraparound
  (`u64sub`); `float64` values are modelled exactly in `Rat` — the Go
  `float64` conversions round, but every comparison these theorems rely on
  (zero versus non-zero, the exact value 80.0) is unaffected by rounding.
* Functions that perform I/O are modelled on their data: the log follower
  becomes a pure function from the upstream byte list to the list of
  emitted messages, with the open-failure branch taking the error text.
-/

set_option maxRecDepth 4096

namespace HoLA

/-- Association-list model of a Go map. Inserting removes any previous
binding of the key, so every map built by these operations has unique
keys, matching Go map semantics. -/
def mapInsert {κ ν : Type} [DecidableEq κ] (m : List (κ × ν)) (k : κ) (v : ν) :
    List (κ × ν) :=
  (k, v) :: m.filter (fun p => p.1 ≠ k)

/-- Go map index read: the value bound to the key, if present. -/
def mapLookup {κ ν : Type} [DecidableEq κ] (m : List (κ × ν)) (k : κ) : Option ν :=
  (m.find? (fun p => p.1 = k)).map (fun p => p.2)

/-- Go `delete(m, k)`. -/
def mapDelete {κ ν : Type} [DecidableEq κ] (m : List (κ × ν)) (k : κ) :
    List (κ × ν) :=
  m.filter (fun p => p.1 ≠ k)

/-- Number of entries bound to a key (1 for a well-formed map holding it). -/
def countKey {κ ν : Type} [DecidableEq κ] (m : List (κ × ν)) (k : κ) : Nat :=
  m.countP (fun p => p.1 = k)

/-- SubscribePayload from handler.go: payload of subscribe/unsubscribe
requests. Absent JSON fields decode to the Go zero values. -/
structure SubscribePayload where
  stream : String
  containerID : String := ""
  intervalSeconds : Int := 0
  deriving DecidableEq, Repr

/-- ErrorPayload from handler.go. -/
structure ErrorPayload where
  error : String
  code : String
  deriving DecidableEq, Repr

/-- ContainerEvent from eventhub.go. -/
structure ContainerEvent where
  action : String
  containerID : String
  containerName : String
  image : String
  stack : String
  status : String
  time : Int
  deriving DecidableEq, Repr

/-- LogLine from streams.go. -/
structure LogLine where
  containerID : String
  timestamp : String
  stream : String
  message : String
  deriving DecidableEq, Repr

/-- ContainerStatsPayload from streams.go (extended stats feature). -/
structure ContainerStatsPayload where
  containerID : String
  cpuPercent : Rat
  memUsedBytes : Nat
  memLimitBytes : Nat
  memPercent : Rat
  deriving DecidableEq, Repr

/-- The structured payloads the server marshals into envelopes
(mustMarshal arguments across handler.go, eventhub.go, streams.go).
`metricsData` stands for a marshalled SystemMetrics snapshot, whose
content comes from the out-of-scope metrics package. -/
inductive Payload where
  | none
  | err (e : ErrorPayload)
  | sub (p : SubscribePayload)
  | unsubAck (stream status : String)
  | event (e : ContainerEvent)
  | log (l : LogLine)
  | stats (s : ContainerStatsPayload)
  | metricsData
  deriving DecidableEq, Repr

/-- Message envelope from handler.go. A Go `Message` literal that omits
`ID` leaves it at the zero value, the empty string. -/
structure Message where
  type : String
  id : String := ""
  payload : Payload := Payload.none
  deriving DecidableEq, Repr

/-- Error envelope as built at every error send site in handler.go:
the `ID` field is never set there. -/
def errMsg (e code : String) : Message :=
  { type := "error", payload := Payload.err ⟨e, code⟩ }

/-- The state a handler invocation can read and write: the subscription
map of the connection (key to context identifier), the hub subscriber
map when a hub is present (client identifier to context identifier;
`none` models a nil `*EventHub`), and the set of cancelled contexts. -/
structure World where
  subs : List (String × Nat)
  hub : Option (List (Nat × Nat))
  cancelled : List Nat
  deriving DecidableEq, Repr

/-- EventHub.Subscribe: `h.subscribers[c] = subscriber{client: c, ctx: ctx}`,
a Go map write keyed by the client pointer. -/
def EventHub.Subscribe (subscribers : List (Nat × Nat)) (ctx c : Nat) :
    List (Nat × Nat) :=
  mapInsert subscribers c ctx

/-- EventHub.Unsubscribe: `delete(h.subscribers, c)`. -/
def EventHub.Unsubscribe (subscribers : List (Nat × Nat)) (c : Nat) :
    List (Nat × Nat) :=
  mapDelete subscribers c

/-- Go `len(key) > 5 && key[:5] == "logs:"` from handleSubscribe,
expressed on the character list underlying the string. -/
def isLogsKey (k : String) : Bool :=
  decide (5 < k.data.length) && decide (k.data.take 5 = "logs:".data)

/-- The log-subscription count loop of handleSubscribe. -/
def countLogKeys (m : List (String × Nat)) : Nat :=
  m.countP (fun p => isLogsKey p.1)

/-- Handler.handleSubscribe from handler.go, as a function of the client
identifier, a fresh context identifier for the spawned task, the current
state, the request correlation id, and the decoded payload (`none`
models a json.Unmarshal failure). Returns the new state and the single
reply sent. -/
def handleSubscribe (selfId fresh : Nat) (w : World) (msgId : String)
    (payload : Option SubscribePayload) : World × Message :=
  match payload with
  | Option.none => (w, errMsg "invalid subscribe payload" "BAD_PAYLOAD")
  | Option.some p =>
    if p.stream = "metrics" then
      if (mapLookup w.subs "metrics").isSome then
        (w, errMsg "already subscribed to metrics" "ALREADY_SUBSCRIBED")
      else
        ({ w with subs := mapInsert w.subs "metrics" fresh },
         { type := "subscribed", id := msgId,
           payload := Payload.sub { stream := "metrics" } })
    else if p.stream = "events" then
      if (mapLookup w.subs "events").isSome then
        (w, errMsg "already subscribed to events" "ALREADY_SUBSCRIBED")
      else
        match w.hub with
        | Option.none => (w, errMsg "event hub not available" "NOT_AVAILABLE")
        | Option.some hubSubs =>
          ({ w with subs := mapInsert w.subs "events" fresh,
                    hub := Option.some (EventHub.Subscribe hubSubs fresh selfId) },
           { type := "subscribed", id := msgId,
             payload := Payload.sub { stream := "events" } })
    else if p.stream = "logs" then
      if p.containerID = "" then
        (w, errMsg "container_id required for logs stream" "MISSING_CONTAINER_ID")
      else
        let subKey := "logs:" ++ p.containerID
        if 3 ≤ countLogKeys w.subs then
          (w, errMsg "max 3 concurrent log subscriptions" "LIMIT_EXCEEDED")
        else if (mapLookup w.subs subKey).isSome then
          (w, errMsg "already subscribed to logs for this container" "ALREADY_SUBSCRIBED")
        else
          ({ w with subs := mapInsert w.subs subKey fresh },
           { type := "subscribed", id := msgId,
             payload := Payload.sub { stream := "logs", containerID := p.containerID } })
    else
      (w, errMsg ("unknown stream: " ++ p.stream) "UNKNOWN_STREAM")

/-- Handler.handleUnsubscribe from handler.go: derive the key, reply
NOT_SUBSCRIBED when absent, otherwise cancel the context, delete the
key and acknowledge. The hub is untouched on every path. -/
def handleUnsubscribe (w : World) (msgId : String)
    (payload : Option SubscribePayload) : World × Message :=
  match payload with
  | Option.none => (w, errMsg "invalid unsubscribe payload" "BAD_PAYLOAD")
  | Option.some p =>
    let subKey := if p.stream = "logs" ∧ p.containerID ≠ "" then
        "logs:" ++ p.containerID else p.stream
    match mapLookup w.subs subKey with
    | Option.none => (w, errMsg ("not subscribed to " ++ subKey) "NOT_SUBSCRIBED")
    | Option.some ctx =>
      ({ w with subs := mapDelete w.subs subKey, cancelled := ctx :: w.cancelled },
       { type := "subscribed", id := msgId,
         payload := Payload.unsubAck p.stream "unsubscribed" })

/-- client.cancelAll from handler.go: cancel every registered context and
empty the subscription map. Runs on connection close; it does not touch
the hub. -/
def cancelAll (w : World) : World :=
  { w with subs := [], cancelled := w.subs.map (fun p => p.2) ++ w.cancelled }

/-- The dispatch switch of Handler.readLoop for one inbound envelope. -/
def readLoopStep (selfId fresh : Nat) (w : World) (mtype msgId : String)
    (payload : Option SubscribePayload) : World × Message :=
  if mtype = "subscribe" then handleSubscribe selfId fresh w msgId payload
  else if mtype = "unsubscribe" then handleUnsubscribe w msgId payload
  else if mtype = "ping" then (w, { type := "pong" })
  else (w, errMsg ("unknown message type: " ++ mtype) "UNKNOWN_TYPE")

/-! Event hub broadcast (eventhub.go). -/

/-- The raw Docker event fields read by EventHub.broadcast
(events.Message of container type: action, actor id, actor attributes). -/
structure RawEvent where
  action : String
  actorID : String
  name : String
  image : String
  project : String
  time : Int
  deriving DecidableEq, Repr

/-- allowedActions from eventhub.go. -/
def allowedActions : List String :=
  ["start", "stop", "die", "kill", "restart", "create", "destroy"]

/-- ContainerEvent construction inside EventHub.broadcast, with the actor
id truncated to at most 12 characters. -/
def containerEventOf (m : RawEvent) : ContainerEvent :=
  { action := m.action
    containerID := m.actorID.take 12
    containerName := m.name
    image := m.image
    stack := m.project
    status := m.action
    time := m.time }

/-- EventHub.broadcast from eventhub.go. The body takes the read lock and
only iterates the subscriber map: a subscriber whose context is done is
skipped with `continue`, every other subscriber gets one send attempt,
and a send error is only logged. The function therefore returns the
subscriber map unchanged together with the list of attempted sends, each
tagged with the subscriber record it targets. -/
def EventHub.broadcast (subscribers : List (Nat × Nat)) (cancelled : List Nat)
    (m : RawEvent) : List (Nat × Nat) × List ((Nat × Nat) × Message) :=
  if m.action ∉ allowedActions then (subscribers, [])
  else
    (subscribers,
     subscribers.filterMap (fun p =>
       if p.2 ∈ cancelled then Option.none
       else Option.some (p, ({ type := "container_event",
                               payload := Payload.event (containerEventOf m) } : Message))))

/-! Log follower (streams.go). -/

/-- binary.BigEndian.Uint32 over the last four header bytes. -/
def beU32 (b4 b5 b6 b7 : Nat) : Nat :=
  ((b4 * 256 + b5) * 256 + b6) * 256 + b7

/-- strings.TrimRight(line, newline): drop every trailing newline. -/
def trimRightNl (l : List Char) : List Char :=
  (l.reverse.dropWhile (fun ch => ch = '\n')).reverse

/-- The per-frame body of the streamLogs loop: convert the payload bytes
to a string, strip trailing newlines, pick the stream name from header
byte 0, and split the first space-delimited token off as the timestamp
(strings.IndexByte with the split only at a positive index). -/
def mkLogLine (containerID : String) (streamType : Nat) (payload : List Nat) :
    LogLine :=
  let line := trimRightNl (payload.map Char.ofNat)
  let stream := if streamType = 2 then "stderr" else "stdout"
  let split : List Char × List Char :=
    match line.findIdx? (fun ch => ch = ' ') with
    | Option.some idx =>
      if 0 < idx then (line.take idx, line.drop (idx + 1)) else ([], line)
    | Option.none => ([], line)
  { containerID := containerID
    timestamp := String.mk split.1
    stream := stream
    message := String.mk split.2 }

/-- The framing loop of streamLogs over the upstream byte stream: read
exactly 8 header bytes (an incomplete header ends the loop, as
io.ReadFull fails and the follower returns), decode the frame size from
bytes 4..7 big-endian, skip the frame when the size is zero or above
1 MiB, read exactly size payload bytes (an incomplete payload ends the
loop), and emit one log line per accepted frame. -/
def parseFrames (containerID : String) : List Nat → List LogLine
  | b0 :: _b1 :: _b2 :: _b3 :: b4 :: b5 :: b6 :: b7 :: rest =>
    let size := beU32 b4 b5 b6 b7
    if size = 0 ∨ 1048576 < size then parseFrames containerID rest
    else if rest.length < size then []
    else mkLogLine containerID b0 (rest.take size) :: parseFrames containerID (rest.drop size)
  | _ => []
  termination_by l => l.length
  decreasing_by
  · simp; omega
  · simp [List.length_drop]; omega

/-- streamLogs from streams.go as a function of the open result (the
error text when StreamContainerLogs fails, otherwise the upstream byte
stream): on open failure it sends one error envelope with code
LOG_STREAM_ERROR; otherwise it emits one log_line envelope per accepted
frame. Cancellation and send failures end the real loop early, so the
real connection receives a prefix of this list. -/
def streamLogs (openResult : Except String (List Nat)) (containerID : String) :
    List Message :=
  match openResult with
  | Except.error e =>
    [errMsg ("failed to open log stream: " ++ e) "LOG_STREAM_ERROR"]
  | Except.ok bytes =>
    (parseFrames containerID bytes).map (fun l =>
      { type := "log_line", payload := Payload.log l })

/-! Container stats adapter (streams.go, extended stats feature). -/

/-- Go uint64 subtraction: wraps modulo 2 to the 64th. -/
def u64sub (a b : Nat) : Nat :=
  (a + 2 ^ 64 - b % 2 ^ 64) % 2 ^ 64

/-- container.StatsResponse CPUUsage fields read by calculateCPUPercent
(all uint64 in the Docker API). -/
structure CPUUsage where
  totalUsage : Nat
  percpuUsage : List Nat
  deriving DecidableEq, Repr

/-- container.StatsResponse CPUStats fields read by calculateCPUPercent.
OnlineCPUs is uint32 in the Docker API. -/
structure CPUStats where
  cpuUsage : CPUUsage
  systemUsage : Nat
  onlineCPUs : Nat
  deriving DecidableEq, Repr

/-- container.StatsResponse MemoryStats fields read by the stats decoder. -/
structure MemoryStats where
  usage : Nat
  limit : Nat
  stats : List (String × Nat)
  deriving DecidableEq, Repr

/-- The container.StatsResponse fields the adapter reads. -/
structure StatsResponse where
  cpuStats : CPUStats
  preCPUStats : CPUStats
  memoryStats : MemoryStats
  deriving DecidableEq, Repr

/-- calculateCPUPercent from streams.go. The two deltas are uint64
subtractions converted to float64, modelled exactly in Rat: a Go uint64
difference wraps to a non-negative value, and float64 conversion of a
uint64 preserves non-negativity, so the translated guard mirrors the
source guard `systemDelta <= 0 || cpuDelta < 0` on those values. -/
def calculateCPUPercent (s : StatsResponse) : Rat :=
  let cpuDelta : Rat :=
    (u64sub s.cpuStats.cpuUsage.totalUsage s.preCPUStats.cpuUsage.totalUsage : Nat)
  let systemDelta : Rat :=
    (u64sub s.cpuStats.systemUsage s.preCPUStats.systemUsage : Nat)
  if systemDelta ≤ 0 ∨ cpuDelta < 0 then 0
  else
    let numCPUs : Rat := (s.cpuStats.onlineCPUs : Rat)
    let numCPUs : Rat := if numCPUs = 0 then (s.cpuStats.cpuUsage.percpuUsage.length : Rat) else numCPUs
    let numCPUs := if numCPUs = 0 then 1 else numCPUs
    cpuDelta / systemDelta * numCPUs * 100

/-- The per-sample body of the stats decoder goroutine in
streamContainerStats: CPU percent, memory usage minus the page cache
when the cgroup reports one (a uint64 subtraction), and memory percent
with a zero-limit guard. -/
def statsPayloadOf (containerID : String) (s : StatsResponse) :
    ContainerStatsPayload :=
  let memUsed : Nat := match mapLookup s.memoryStats.stats "cache" with
    | Option.some cache => u64sub s.memoryStats.usage cache
    | Option.none => s.memoryStats.usage
  let memLimit := s.memoryStats.limit
  let memPercent : Rat := if 0 < memLimit then
      (memUsed : Rat) / (memLimit : Rat) * 100 else 0
  { containerID := containerID
    cpuPercent := calculateCPUPercent s
    memUsedBytes := memUsed
    memLimitBytes := memLimit
    memPercent := memPercent }

/-- streamContainerStats from streams.go as a function of the open result:
on open failure it sends one error envelope with code STATS_STREAM_ERROR;
otherwise every message it can emit is a container_stats envelope built
by statsPayloadOf (the ticker and the single-slot latest-value channel
mean the real connection receives a subsequence of these samples). -/
def streamContainerStats (openResult : Except String (List StatsResponse))
    (containerID : String) : List Message :=
  match openResult with
  | Except.error e =>
    [errMsg ("failed to open stats stream: " ++ e) "STATS_STREAM_ERROR"]
  | Except.ok samples =>
    samples.map (fun s =>
      { type := "container_stats", payload := Payload.stats (statsPayloadOf containerID s) })

/-- The metrics envelope shape sent by sendMetrics in streams.go. -/
def metricsMessage : Message :=
  { type := "metrics", payload := Payload.metricsData }

/-- The error codes listed by the spec for the wire protocol. -/
def specErrorCodes : List String :=
  ["UNKNOWN_TYPE", "BAD_PAYLOAD", "UNKNOWN_STREAM", "ALREADY_SUBSCRIBED",
   "NOT_SUBSCRIBED", "NOT_AVAILABLE", "MISSING_CONTAINER_ID", "LIMIT_EXCEEDED"]

/-- The error code carried by an envelope, when it is an error envelope. -/
def errCodeOf (m : Message) : Option String :=
  match m.payload with
  | Payload.err e => Option.some e.code
  | _ => Option.none

/-- The shapes of subscription keys handleSubscribe can store:
`"metrics"`, `"events"`, or `"logs:<container-id>"` with a non-empty
container id. -/
def GoodKey (k : String) : Prop :=
  k = "metrics" ∨ k = "events" ∨ ∃ cid, cid ≠ "" ∧ k = "logs:" ++ cid

/-- Connection states reachable by the read loop: a fresh connection has
an empty subscription map and either a reference to the (initially
empty-map) hub or a nil hub, and every later state arises from a
subscribe, unsubscribe, or connection-close step. -/
inductive Reachable : World → Prop
  | init (hub : Option (List (Nat × Nat))) (hhub : hub = Option.some [] ∨ hub = Option.none) :
      Reachable { subs := [], hub := hub, cancelled := [] }
  | subscribeStep (selfId fresh : Nat) (msgId : String)
      (payload : Option SubscribePayload) {w : World} (hw : Reachable w) :
      Reachable (handleSubscribe selfId fresh w msgId payload).1
  | unsubscribeStep (msgId : String) (payload : Option SubscribePayload)
      {w : World} (hw : Reachable w) :
      Reachable (handleUnsubscribe w msgId payload).1
  | closeStep {w : World} (hw : Reachable w) : Reachable (cancelAll w)

/-! Helper lemmas about the association-list map model. -/

theorem mapLookup_eq_none {κ ν : Type} [DecidableEq κ] (m : List (κ × ν)) (k : κ) :
    mapLookup m k = Option.none ↔ ∀ p ∈ m, p.1 ≠ k := by
  simp [mapLookup, List.find?_eq_none]

theorem mapLookup_mapDelete_self {κ ν : Type} [DecidableEq κ] (m : List (κ × ν)) (k : κ) :
    mapLookup (mapDelete m k) k = Option.none := by
  rw [mapLookup_eq_none]
  intro p hp
  have := List.of_mem_filter hp
  simpa using this

theorem mapLookup_mapInsert_self {κ ν : Type} [DecidableEq κ] (m : List (κ × ν)) (k : κ) (v : ν) :
    mapLookup (mapInsert m k v) k = Option.some v := by
  simp [mapLookup, mapInsert, List.find?_cons]

theorem mapInsert_mapInsert_self {κ ν : Type} [DecidableEq κ] (m : List (κ × ν)) (k : κ) (v1 v2 : ν) :
    mapInsert (mapInsert m k v1) k v2 = mapInsert m k v2 := by
  simp [mapInsert, List.filter_filter]

theorem countKey_mapInsert_self {κ ν : Type} [DecidableEq κ] (m : List (κ × ν)) (k : κ) (v : ν) :
    countKey (mapInsert m k v) k = 1 := by
  simp only [countKey, mapInsert, List.countP_cons, decide_eq_true_eq, if_true]
  rw [List.countP_eq_zero.mpr]
  intro p hp
  have := List.of_mem_filter hp
  simpa using this

theorem nodup_keys_mapInsert {κ ν : Type} [DecidableEq κ] (m : List (κ × ν)) (k : κ) (v : ν)
    (h : (m.map Prod.fst).Nodup) : ((mapInsert m k v).map Prod.fst).Nodup := by
  simp only [mapInsert, List.map_cons]
  refine List.Nodup.cons ?_ ?_
  · intro hmem
    simp only [List.mem_map] at hmem
    obtain ⟨p, hp, hpk⟩ := hmem
    have := List.of_mem_filter hp
    simp [hpk] at this
  · exact (List.Sublist.map Prod.fst (List.filter_sublist m)).nodup h

theorem countKey_eq_one {κ ν : Type} [DecidableEq κ] (m : List (κ × ν)) (k : κ)
    (hnd : (m.map Prod.fst).Nodup) (hm : (mapLookup m k).isSome) : countKey m k = 1 := by
  induction m with
  | nil => simp [mapLookup] at hm
  | cons a t ih =>
    simp only [List.map_cons, List.nodup_cons] at hnd
    by_cases hk : a.1 = k
    · have hz : t.countP (fun p => decide (p.1 = k)) = 0 := by
        rw [List.countP_eq_zero]
        intro p hp
        simp only [decide_eq_true_eq]
        intro hpk
        exact hnd.1 (hk ▸ hpk ▸ List.mem_map_of_mem Prod.fst hp)
      simp [countKey, List.countP_cons, hk, hz]
    · have hm' : (mapLookup t k).isSome := by
        simpa [mapLookup, List.find?_cons, hk] using hm
      have := ih hnd.2 hm'
      simpa [countKey, List.countP_cons, hk] using this

theorem logs_prefixed_key_ne_logs (cid : String) : "logs:" ++ cid ≠ "logs" := by
  intro h2
  have h3 := congrArg String.data h2
  rw [String.data_append] at h3
  have h4 := congrArg List.length h3
  simp at h4

theorem not_goodKey_logs : ¬ GoodKey "logs" := by
  rintro (h | h | ⟨cid, _, h⟩)
  · exact absurd h (by decide)
  · exact absurd h (by decide)
  · exact logs_prefixed_key_ne_logs cid h.symm

/-! Characterizations of the handler branches. -/

theorem handleSubscribe_subs_shape (selfId fresh : Nat) (w : World) (msgId : String)
    (payload : Option SubscribePayload) :
    (handleSubscribe selfId fresh w msgId payload).1.subs = w.subs ∨
    ∃ k, GoodKey k ∧ (handleSubscribe selfId fresh w msgId payload).1.subs = mapInsert w.subs k fresh := by
  cases payload with
  | none => left; rfl
  | some p =>
    unfold handleSubscribe
    dsimp only
    split
    · split
      · left; rfl
      · right; exact ⟨"metrics", Or.inl rfl, rfl⟩
    · split
      · split
        · left; rfl
        · split
          · left; rfl
          · right; exact ⟨"events", Or.inr (Or.inl rfl), rfl⟩
      · split
        · split
          · left; rfl
          · split
            · left; rfl
            · split
              · left; rfl
              · right
                refine ⟨"logs:" ++ p.containerID, Or.inr (Or.inr ⟨p.containerID, ?_, rfl⟩), rfl⟩
                assumption
        · left; rfl

theorem handleSubscribe_reply_shape (selfId fresh : Nat) (w : World) (msgId : String)
    (payload : Option SubscribePayload) :
    ((handleSubscribe selfId fresh w msgId payload).2.type = "subscribed" ∧
     (handleSubscribe selfId fresh w msgId payload).2.id = msgId ∧
     errCodeOf (handleSubscribe selfId fresh w msgId payload).2 = Option.none) ∨
    ((handleSubscribe selfId fresh w msgId payload).2.type = "error" ∧
     (handleSubscribe selfId fresh w msgId payload).2.id = "" ∧
     ∃ c ∈ specErrorCodes, errCodeOf (handleSubscribe selfId fresh w msgId payload).2 = Option.some c) := by
  cases payload with
  | none => right; exact ⟨rfl, rfl, "BAD_PAYLOAD", by decide, rfl⟩
  | some p =>
    unfold handleSubscribe
    dsimp only
    split
    · split
      · right; exact ⟨rfl, rfl, "ALREADY_SUBSCRIBED", by decide, rfl⟩
      · left; exact ⟨rfl, rfl, rfl⟩
    · split
      · split
        · right; exact ⟨rfl, rfl, "ALREADY_SUBSCRIBED", by decide, rfl⟩
        · split
          · right; exact ⟨rfl, rfl, "NOT_AVAILABLE", by decide, rfl⟩
          · left; exact ⟨rfl, rfl, rfl⟩
      · split
        · split
          · right; exact ⟨rfl, rfl, "MISSING_CONTAINER_ID", by decide, rfl⟩
          · split
            · right; exact ⟨rfl, rfl, "LIMIT_EXCEEDED", by decide, rfl⟩
            · split
              · right; exact ⟨rfl, rfl, "ALREADY_SUBSCRIBED", by decide, rfl⟩
              · left; exact ⟨rfl, rfl, rfl⟩
        · right; exact ⟨rfl, rfl, "UNKNOWN_STREAM", by decide, rfl⟩

theorem handleUnsubscribe_reply_shape (w : World) (msgId : String)
    (payload : Option SubscribePayload) :
    ((handleUnsubscribe w msgId payload).2.type = "subscribed" ∧
     (handleUnsubscribe w msgId payload).2.id = msgId ∧
     errCodeOf (handleUnsubscribe w msgId payload).2 = Option.none) ∨
    ((handleUnsubscribe w msgId payload).2.type = "error" ∧
     (handleUnsubscribe w msgId payload).2.id = "" ∧
     ∃ c ∈ specErrorCodes, errCodeOf (handleUnsubscribe w msgId payload).2 = Option.some c) := by
  cases payload with
  | none => right; exact ⟨rfl, rfl, "BAD_PAYLOAD", by decide, rfl⟩
  | some p =>
    unfold handleUnsubscribe
    dsimp only
    split
    · right; exact ⟨rfl, rfl, "NOT_SUBSCRIBED", by decide, rfl⟩
    · left; exact ⟨rfl, rfl, rfl⟩

theorem handleUnsubscribe_subs_shape (w : World) (msgId : String)
    (payload : Option SubscribePayload) :
    (handleUnsubscribe w msgId payload).1.subs = w.subs ∨
    ∃ k, (handleUnsubscribe w msgId payload).1.subs = mapDelete w.subs k := by
  cases payload with
  | none => left; rfl
  | some p =>
    unfold handleUnsubscribe
    dsimp only
    split
    · left; rfl
    · right; exact ⟨_, rfl⟩

/-- Invariant of every reachable connection state: the subscription map
has unique keys and every key has one of the shapes subscribe stores. -/
theorem reachable_subs_wf {w : World} (hw : Reachable w) :
    (w.subs.map Prod.fst).Nodup ∧ ∀ k ∈ w.subs.map Prod.fst, GoodKey k := by
  induction hw with
  | init hub hhub => simp
  | subscribeStep selfId fresh msgId payload hw ih =>
    rcases handleSubscribe_subs_shape selfId fresh _ msgId payload with h | ⟨k, hk, h⟩
    · rw [h]; exact ih
    · rw [h]
      refine ⟨nodup_keys_mapInsert _ _ _ ih.1, ?_⟩
      intro k2 hk2
      simp only [mapInsert, List.map_cons, List.mem_cons, List.mem_map] at hk2
      rcases hk2 with rfl | ⟨p, hp, rfl⟩
      · exact hk
      · exact ih.2 _ (List.mem_map_of_mem Prod.fst (List.mem_of_mem_filter hp))
  | unsubscribeStep msgId payload hw ih =>
    rcases handleUnsubscribe_subs_shape _ msgId payload with h | ⟨k, h⟩
    · rw [h]; exact ih
    · rw [h]
      refine ⟨(List.Sublist.map Prod.fst (List.filter_sublist _)).nodup ih.1, ?_⟩
      intro k2 hk2
      simp only [mapDelete, List.mem_map] at hk2
      obtain ⟨p, hp, rfl⟩ := hk2
      exact ih.2 _ (List.mem_map_of_mem Prod.fst (List.mem_of_mem_filter hp))
  | closeStep hw ih => simp [cancelAll]

/-- Subscribe never stores the bare key "logs", so no reachable state
holds it. -/
theorem reachable_no_bare_logs {w : World} (hw : Reachable w) :
    mapLookup w.subs "logs" = Option.none := by
  rw [mapLookup_eq_none]
  intro p hp hpk
  exact not_goodKey_logs (hpk ▸ (reachable_subs_wf hw).2 p.1 (List.mem_map_of_mem Prod.fst hp))

/-! Claim theorems. -/

/-- C1 counterexample: after a connection subscribes to events and then
unsubscribes (or closes, via cancelAll), the hub subscriber set still
contains the registration for that connection — handleUnsubscribe and
cancelAll never invoke EventHub.Unsubscribe, contradicting the claim
that teardown removes the registration from the subscriber set. -/
theorem C1_counterexample :
    (let w0 : World := { subs := [], hub := Option.some [], cancelled := [] }
     let w1 := (handleSubscribe 7 5 w0 "id1" (Option.some { stream := "events" })).1
     let r := handleUnsubscribe w1 "id2" (Option.some { stream := "events" })
     r.2.type = "subscribed" ∧ r.1.subs = [] ∧
     r.1.hub = Option.some [(7, 5)] ∧
     (cancelAll w1).hub = Option.some [(7, 5)] ∧
     mapLookup [(7, 5)] 7 = Option.some 5) := by decide

/-- C1 (amended): tearing down the events subscription — explicit
unsubscribe or connection close — cancels the subscription context and
removes the key from the connection map, but never calls
EventHub.Unsubscribe: the hub state is unchanged on every teardown path,
and the stale registration is only skipped (zero delivery attempts) on
later broadcast passes because its context is cancelled. -/
theorem C1_events_teardown (w : World) (msgId cid : String) (iv : Int) (ctx : Nat)
    (hsub : mapLookup w.subs "events" = Option.some ctx) :
    ((handleUnsubscribe w msgId (Option.some { stream := "events", containerID := cid, intervalSeconds := iv })).1.hub = w.hub ∧
     mapLookup (handleUnsubscribe w msgId (Option.some { stream := "events", containerID := cid, intervalSeconds := iv })).1.subs "events" = Option.none ∧
     ctx ∈ (handleUnsubscribe w msgId (Option.some { stream := "events", containerID := cid, intervalSeconds := iv })).1.cancelled) ∧
    ((cancelAll w).hub = w.hub ∧ ∀ p ∈ w.subs, p.2 ∈ (cancelAll w).cancelled) ∧
    (∀ (hubSubs : List (Nat × Nat)) (m : RawEvent) (cancelled : List Nat), ctx ∈ cancelled →
      ∀ a ∈ (EventHub.broadcast hubSubs cancelled m).2, a.1.2 ≠ ctx) := by
  refine ⟨?_, ⟨rfl, ?_⟩, ?_⟩
  · unfold handleUnsubscribe
    dsimp only
    rw [if_neg (by simp)]
    rw [hsub]
    exact ⟨rfl, mapLookup_mapDelete_self _ _, List.mem_cons_self _ _⟩
  · intro p hp
    exact List.mem_append_left _ (List.mem_map_of_mem _ hp)
  · intro hubSubs m cancelled hctx a ha
    unfold EventHub.broadcast at ha
    split at ha
    · simp at ha
    · simp only [List.mem_filterMap] at ha
      obtain ⟨p, hp, hfa⟩ := ha
      by_cases hc : p.2 ∈ cancelled
      · simp [hc] at hfa
      · simp only [hc, if_false] at hfa
        obtain rfl := Option.some.inj hfa
        intro heq
        exact hc (by rw [show p.2 = ctx from heq]; exact hctx)

/-- Witness for C1_events_teardown at a concrete state. -/
theorem C1_events_teardown_witness :
    (handleUnsubscribe { subs := [("events", 5)], hub := Option.some [(7, 5)], cancelled := [] }
        "u1" (Option.some { stream := "events", containerID := "", intervalSeconds := 0 })).1.hub =
      Option.some [(7, 5)] :=
  (C1_events_teardown { subs := [("events", 5)], hub := Option.some [(7, 5)], cancelled := [] }
    "u1" "" 0 5 (by decide)).1.1

/-- C2: calculateCPUPercent yields 80 on the spec example and 0 when the
system delta is zero, but the negative-delta clamp in the claim fails:
the deltas are computed by uint64 subtraction, which wraps, so a current
TotalUsage smaller than the previous one produces a huge positive CPU
percentage instead of 0.0 — the source guard on a negative cpuDelta can
never fire. -/
theorem C2_cpu_percent_eval :
    calculateCPUPercent
        { cpuStats := { cpuUsage := { totalUsage := 200, percpuUsage := [] },
                        systemUsage := 1000, onlineCPUs := 4 },
          preCPUStats := { cpuUsage := { totalUsage := 0, percpuUsage := [] },
                           systemUsage := 0, onlineCPUs := 0 },
          memoryStats := { usage := 0, limit := 0, stats := [] } } = 80 ∧
    calculateCPUPercent
        { cpuStats := { cpuUsage := { totalUsage := 500, percpuUsage := [] },
                        systemUsage := 1000, onlineCPUs := 4 },
          preCPUStats := { cpuUsage := { totalUsage := 0, percpuUsage := [] },
                           systemUsage := 1000, onlineCPUs := 0 },
          memoryStats := { usage := 0, limit := 0, stats := [] } } = 0 ∧
    calculateCPUPercent
        { cpuStats := { cpuUsage := { totalUsage := 0, percpuUsage := [] },
                        systemUsage := 1000, onlineCPUs := 4 },
          preCPUStats := { cpuUsage := { totalUsage := 100, percpuUsage := [] },
                           systemUsage := 0, onlineCPUs := 0 },
          memoryStats := { usage := 0, limit := 0, stats := [] } } =
      ((2 ^ 64 - 100 : Nat) : Rat) / 1000 * 4 * 100 ∧
    calculateCPUPercent
        { cpuStats := { cpuUsage := { totalUsage := 0, percpuUsage := [] },
                        systemUsage := 1000, onlineCPUs := 4 },
          preCPUStats := { cpuUsage := { totalUsage := 100, percpuUsage := [] },
                           systemUsage := 0, onlineCPUs := 0 },
          memoryStats := { usage := 0, limit := 0, stats := [] } } ≠ 0 := by
  refine ⟨?_, ?_, ?_, ?_⟩ <;>
    · unfold calculateCPUPercent
      norm_num [u64sub]

/-- C3 counterexample: on a connection that reached three log
subscriptions (a, b, c) through subscribe steps, a duplicate subscribe
for container a is answered LIMIT_EXCEEDED, not ALREADY_SUBSCRIBED —
the limit check precedes the already-present check, contrary to the
claim. -/
theorem C3_counterexample :
    (let w0 : World := { subs := [], hub := Option.some [], cancelled := [] }
     let w1 := (handleSubscribe 7 1 w0 "s1" (Option.some { stream := "logs", containerID := "a" })).1
     let w2 := (handleSubscribe 7 2 w1 "s2" (Option.some { stream := "logs", containerID := "b" })).1
     let w3 := (handleSubscribe 7 3 w2 "s3" (Option.some { stream := "logs", containerID := "c" })).1
     let r := handleSubscribe 7 4 w3 "s4" (Option.some { stream := "logs", containerID := "a" })
     (mapLookup w3.subs "logs:a").isSome ∧
     errCodeOf r.2 = Option.some "LIMIT_EXCEEDED" ∧
     errCodeOf r.2 ≠ Option.some "ALREADY_SUBSCRIBED" ∧
     r.1 = w3) := by decide

/-- C3 (amended): a duplicate logs subscribe on a reachable connection
state is answered with exactly one ALREADY_SUBSCRIBED error and leaves
exactly one map entry (hence one task) for the key — but only while the
connection holds fewer than three log subscriptions, because the
LIMIT_EXCEEDED check runs first; with three held, the duplicate request
is answered LIMIT_EXCEEDED instead, the state unchanged either way. -/
theorem C3_duplicate_logs_subscribe (w : World) (hw : Reachable w) (selfId fresh : Nat)
    (msgId cid : String) (iv : Int) (hcid : cid ≠ "")
    (hmem : (mapLookup w.subs ("logs:" ++ cid)).isSome) :
    (countLogKeys w.subs < 3 →
      handleSubscribe selfId fresh w msgId (Option.some { stream := "logs", containerID := cid, intervalSeconds := iv }) =
        (w, errMsg "already subscribed to logs for this container" "ALREADY_SUBSCRIBED") ∧
      countKey w.subs ("logs:" ++ cid) = 1) ∧
    (3 ≤ countLogKeys w.subs →
      handleSubscribe selfId fresh w msgId (Option.some { stream := "logs", containerID := cid, intervalSeconds := iv }) =
        (w, errMsg "max 3 concurrent log subscriptions" "LIMIT_EXCEEDED")) := by
  constructor
  · intro hcount
    constructor
    · unfold handleSubscribe
      dsimp only
      rw [if_neg (by decide), if_neg (by decide), if_pos rfl, if_neg hcid,
          if_neg (by omega), if_pos hmem]
    · exact countKey_eq_one _ _ (reachable_subs_wf hw).1 hmem
  · intro hcount
    unfold handleSubscribe
    dsimp only
    rw [if_neg (by decide), if_neg (by decide), if_pos rfl, if_neg hcid, if_pos hcount]

/-- Witness for C3_duplicate_logs_subscribe: one log subscription held,
then a duplicate subscribe for the same container. -/
theorem C3_duplicate_logs_subscribe_witness :
    handleSubscribe 7 2
        (handleSubscribe 7 1 { subs := [], hub := Option.some [], cancelled := [] } "s1"
          (Option.some { stream := "logs", containerID := "a", intervalSeconds := 0 })).1 "s2"
        (Option.some { stream := "logs", containerID := "a", intervalSeconds := 0 }) =
      ((handleSubscribe 7 1 { subs := [], hub := Option.some [], cancelled := [] } "s1"
          (Option.some { stream := "logs", containerID := "a", intervalSeconds := 0 })).1,
       errMsg "already subscribed to logs for this container" "ALREADY_SUBSCRIBED") :=
  ((C3_duplicate_logs_subscribe
      (handleSubscribe 7 1 { subs := [], hub := Option.some [], cancelled := [] } "s1"
        (Option.some { stream := "logs", containerID := "a", intervalSeconds := 0 })).1
      (Reachable.subscribeStep 7 1 "s1" _ (Reachable.init _ (Or.inl rfl)))
      7 2 "s2" "a" 0 (by decide) (by decide)).1 (by decide)).1

/-- C4 counterexample: two EventHub.Subscribe calls for the same
connection leave one registration, not two — the subscriber map is
keyed by the client, so the second call overwrites the first. -/
theorem C4_counterexample :
    EventHub.Subscribe (EventHub.Subscribe [] 100 7) 200 7 = [(7, 200)] ∧
    (EventHub.Subscribe (EventHub.Subscribe [] 100 7) 200 7).length ≠ 2 := by decide

/-- C4 (amended): calling EventHub.Subscribe twice for the same
connection replaces the first registration: the hub holds exactly one
subscriber record for that connection, bound to the context of the most
recent call. -/
theorem C4_subscribe_overwrites (subscribers : List (Nat × Nat)) (c ctx1 ctx2 : Nat) :
    EventHub.Subscribe (EventHub.Subscribe subscribers ctx1 c) ctx2 c =
      EventHub.Subscribe subscribers ctx2 c ∧
    mapLookup (EventHub.Subscribe subscribers ctx2 c) c = Option.some ctx2 ∧
    countKey (EventHub.Subscribe subscribers ctx2 c) c = 1 :=
  ⟨mapInsert_mapInsert_self _ _ _ _, mapLookup_mapInsert_self _ _ _,
   countKey_mapInsert_self _ _ _⟩

/-- C5: the log frame parser reads an 8-byte header per frame, decodes
the length from the last four header bytes big-endian, skips frames of
zero or over-1-MiB length, consumes exactly length payload bytes and
emits one entry per accepted frame; the spec example payload yields
timestamp 2024-01-15T10:30:05Z and message hello; header byte 0 equal
to 1 maps to stdout and 2 to stderr; with no space in the line the
whole line is the message and the timestamp is empty. -/
theorem C5_log_frame_parsing (cid : String) (b0 b1 b2 b3 b4 b5 b6 b7 : Nat) (rest : List Nat) :
    (beU32 b4 b5 b6 b7 = 0 ∨ 1048576 < beU32 b4 b5 b6 b7 →
      parseFrames cid (b0 :: b1 :: b2 :: b3 :: b4 :: b5 :: b6 :: b7 :: rest) =
        parseFrames cid rest) ∧
    (1 ≤ beU32 b4 b5 b6 b7 → beU32 b4 b5 b6 b7 ≤ 1048576 → beU32 b4 b5 b6 b7 ≤ rest.length →
      parseFrames cid (b0 :: b1 :: b2 :: b3 :: b4 :: b5 :: b6 :: b7 :: rest) =
        mkLogLine cid b0 (rest.take (beU32 b4 b5 b6 b7)) ::
          parseFrames cid (rest.drop (beU32 b4 b5 b6 b7))) ∧
    mkLogLine cid 1 ("2024-01-15T10:30:05Z hello\n".data.map Char.toNat) =
      { containerID := cid, timestamp := "2024-01-15T10:30:05Z", stream := "stdout",
        message := "hello" } ∧
    (∀ payload : List Nat, (mkLogLine cid 1 payload).stream = "stdout") ∧
    (∀ payload : List Nat, (mkLogLine cid 2 payload).stream = "stderr") ∧
    (∀ payload : List Nat, ' ' ∉ trimRightNl (payload.map Char.ofNat) →
      (mkLogLine cid b0 payload).timestamp = "" ∧
      (mkLogLine cid b0 payload).message = String.mk (trimRightNl (payload.map Char.ofNat))) := by
  refine ⟨?_, ?_, ?_, ?_, ?_, ?_⟩
  · intro h
    conv_lhs => rw [parseFrames]
    rw [if_pos h]
  · intro h1 h2 h3
    conv_lhs => rw [parseFrames]
    rw [if_neg (by omega), if_neg (by omega)]
  · rfl
  · intro payload; rfl
  · intro payload; rfl
  · intro payload h
    have hf : (trimRightNl (payload.map Char.ofNat)).findIdx? (fun ch => ch = ' ') = Option.none := by
      rw [List.findIdx?_eq_none_iff]
      intro x hx
      exact decide_eq_false (fun hxe => h (hxe ▸ hx))
    unfold mkLogLine
    simp only [hf]
    exact ⟨trivial, trivial⟩

/-- Witness for C5_log_frame_parsing: a zero-length frame is skipped and
a two-byte frame is parsed. -/
theorem C5_log_frame_parsing_witness :
    parseFrames "c1" (1 :: 0 :: 0 :: 0 :: 0 :: 0 :: 0 :: 0 :: [9, 9]) = parseFrames "c1" [9, 9] ∧
    parseFrames "c1" (1 :: 0 :: 0 :: 0 :: 0 :: 0 :: 0 :: 2 :: [104, 105]) =
      mkLogLine "c1" 1 ([104, 105].take (beU32 0 0 0 2)) ::
        parseFrames "c1" ([104, 105].drop (beU32 0 0 0 2)) :=
  ⟨(C5_log_frame_parsing "c1" 1 0 0 0 0 0 0 0 [9, 9]).1 (Or.inl (by decide)),
   (C5_log_frame_parsing "c1" 1 0 0 0 0 0 0 2 [104, 105]).2.1 (by decide) (by decide) (by decide)⟩

/-- C6 counterexample: the log follower answers a failed stream open
with an error envelope carrying code LOG_STREAM_ERROR, which is outside
the closed set of codes the claim allows. -/
theorem C6_counterexample :
    streamLogs (Except.error "connection refused") "c1" =
      [errMsg "failed to open log stream: connection refused" "LOG_STREAM_ERROR"] ∧
    errCodeOf (errMsg "failed to open log stream: connection refused" "LOG_STREAM_ERROR") =
      Option.some "LOG_STREAM_ERROR" ∧
    "LOG_STREAM_ERROR" ∉ specErrorCodes := by decide

/-- C6 (amended): every error envelope the server sends carries a code
from the spec set extended with LOG_STREAM_ERROR and STATS_STREAM_ERROR
(the open-failure codes of the log and stats followers); push paths
(broadcast, metrics) emit no error envelope at all. -/
theorem C6_error_codes :
    (∀ (selfId fresh : Nat) (w : World) (mtype msgId : String)
       (payload : Option SubscribePayload) (c : String),
       errCodeOf (readLoopStep selfId fresh w mtype msgId payload).2 = Option.some c →
       c ∈ specErrorCodes ++ ["LOG_STREAM_ERROR", "STATS_STREAM_ERROR"]) ∧
    (∀ (openResult : Except String (List Nat)) (cid : String) (msg : Message) (c : String),
       msg ∈ streamLogs openResult cid → errCodeOf msg = Option.some c →
       c ∈ specErrorCodes ++ ["LOG_STREAM_ERROR", "STATS_STREAM_ERROR"]) ∧
    (∀ (openResult : Except String (List StatsResponse)) (cid : String) (msg : Message) (c : String),
       msg ∈ streamContainerStats openResult cid → errCodeOf msg = Option.some c →
       c ∈ specErrorCodes ++ ["LOG_STREAM_ERROR", "STATS_STREAM_ERROR"]) ∧
    (∀ (subscribers : List (Nat × Nat)) (cancelled : List Nat) (m : RawEvent)
       (a : (Nat × Nat) × Message), a ∈ (EventHub.broadcast subscribers cancelled m).2 →
       errCodeOf a.2 = Option.none) ∧
    errCodeOf metricsMessage = Option.none := by
  refine ⟨?_, ?_, ?_, ?_, rfl⟩
  · intro selfId fresh w mtype msgId payload c hc
    unfold readLoopStep at hc
    split_ifs at hc
    · rcases handleSubscribe_reply_shape selfId fresh w msgId payload with ⟨_, _, h⟩ | ⟨_, _, c2, hc2, h⟩
      · rw [h] at hc; cases hc
      · rw [h] at hc
        obtain rfl := Option.some.inj hc
        exact List.mem_append_left _ hc2
    · rcases handleUnsubscribe_reply_shape w msgId payload with ⟨_, _, h⟩ | ⟨_, _, c2, hc2, h⟩
      · rw [h] at hc; cases hc
      · rw [h] at hc
        obtain rfl := Option.some.inj hc
        exact List.mem_append_left _ hc2
    · cases hc
    · obtain rfl := Option.some.inj hc
      exact show "UNKNOWN_TYPE" ∈ specErrorCodes ++ ["LOG_STREAM_ERROR", "STATS_STREAM_ERROR"] by decide
  · intro openResult cid msg c hmem hc
    cases openResult with
    | error e =>
      simp only [streamLogs, List.mem_singleton] at hmem
      rw [hmem] at hc
      obtain rfl := Option.some.inj hc
      exact show "LOG_STREAM_ERROR" ∈ specErrorCodes ++ ["LOG_STREAM_ERROR", "STATS_STREAM_ERROR"] by decide
    | ok bytes =>
      simp only [streamLogs, List.mem_map] at hmem
      obtain ⟨l, _, rfl⟩ := hmem
      cases hc
  · intro openResult cid msg c hmem hc
    cases openResult with
    | error e =>
      simp only [streamContainerStats, List.mem_singleton] at hmem
      rw [hmem] at hc
      obtain rfl := Option.some.inj hc
      exact show "STATS_STREAM_ERROR" ∈ specErrorCodes ++ ["LOG_STREAM_ERROR", "STATS_STREAM_ERROR"] by decide
    | ok samples =>
      simp only [streamContainerStats, List.mem_map] at hmem
      obtain ⟨l, _, rfl⟩ := hmem
      cases hc
  · intro subscribers cancelled m a ha
    unfold EventHub.broadcast at ha
    split at ha
    · simp at ha
    · simp only [List.mem_filterMap] at ha
      obtain ⟨q, hq, hfa⟩ := ha
      by_cases hcq : q.2 ∈ cancelled
      · simp [hcq] at hfa
      · simp only [hcq, if_false] at hfa
        obtain rfl := Option.some.inj hfa
        rfl

/-- Witness for C6_error_codes: the UNKNOWN_TYPE reply code is in the
extended set. -/
theorem C6_error_codes_witness :
    "UNKNOWN_TYPE" ∈ specErrorCodes ++ ["LOG_STREAM_ERROR", "STATS_STREAM_ERROR"] :=
  C6_error_codes.1 7 0 { subs := [], hub := Option.none, cancelled := [] }
    "bogus" "i1" Option.none "UNKNOWN_TYPE" (by decide)

/-- C7 counterexample: a duplicate metrics subscribe carrying request id
req-1 is answered with an error envelope whose id is empty, not the
request id — error envelopes never echo the correlation id. -/
theorem C7_counterexample :
    (let w0 : World := { subs := [], hub := Option.some [], cancelled := [] }
     let w1 := (handleSubscribe 7 1 w0 "s1" (Option.some { stream := "metrics" })).1
     let r := handleSubscribe 7 2 w1 "req-1" (Option.some { stream := "metrics" })
     r.2.type = "error" ∧ errCodeOf r.2 = Option.some "ALREADY_SUBSCRIBED" ∧
     r.2.id = "" ∧ r.2.id ≠ "req-1") := by decide

/-- C7 (amended): the correlation id is echoed only on subscribed
acknowledgements (including the unsubscribe ack); every other reply —
error envelopes and pong included — carries an empty id, and push
messages (container_event, log_line, container_stats, metrics) carry no
id either. -/
theorem C7_id_echo :
    (∀ (selfId fresh : Nat) (w : World) (mtype msgId : String)
       (payload : Option SubscribePayload),
       ((readLoopStep selfId fresh w mtype msgId payload).2.type = "subscribed" →
         (readLoopStep selfId fresh w mtype msgId payload).2.id = msgId) ∧
       ((readLoopStep selfId fresh w mtype msgId payload).2.type ≠ "subscribed" →
         (readLoopStep selfId fresh w mtype msgId payload).2.id = "")) ∧
    (∀ (subscribers : List (Nat × Nat)) (cancelled : List Nat) (m : RawEvent)
       (a : (Nat × Nat) × Message), a ∈ (EventHub.broadcast subscribers cancelled m).2 →
       a.2.id = "") ∧
    (∀ (openResult : Except String (List Nat)) (cid : String) (msg : Message),
       msg ∈ streamLogs openResult cid → msg.id = "") ∧
    (∀ (openResult : Except String (List StatsResponse)) (cid : String) (msg : Message),
       msg ∈ streamContainerStats openResult cid → msg.id = "") ∧
    metricsMessage.id = "" := by
  refine ⟨?_, ?_, ?_, ?_, rfl⟩
  · intro selfId fresh w mtype msgId payload
    constructor
    · intro htype
      unfold readLoopStep at htype ⊢
      split_ifs at htype ⊢
      · rcases handleSubscribe_reply_shape selfId fresh w msgId payload with ⟨_, h, _⟩ | ⟨h2, _, _⟩
        · exact h
        · rw [htype] at h2; exact absurd h2 (by decide)
      · rcases handleUnsubscribe_reply_shape w msgId payload with ⟨_, h, _⟩ | ⟨h2, _, _⟩
        · exact h
        · rw [htype] at h2; exact absurd h2 (by decide)
      · exact absurd (show ("pong" : String) = "subscribed" from htype) (by decide)
      · exact absurd (show ("error" : String) = "subscribed" from htype) (by decide)
    · intro htype
      unfold readLoopStep at htype ⊢
      split_ifs at htype ⊢
      · rcases handleSubscribe_reply_shape selfId fresh w msgId payload with ⟨h2, _, _⟩ | ⟨_, h, _⟩
        · exact absurd h2 htype
        · exact h
      · rcases handleUnsubscribe_reply_shape w msgId payload with ⟨h2, _, _⟩ | ⟨_, h, _⟩
        · exact absurd h2 htype
        · exact h
      · rfl
      · rfl
  · intro subscribers cancelled m a ha
    unfold EventHub.broadcast at ha
    split at ha
    · simp at ha
    · simp only [List.mem_filterMap] at ha
      obtain ⟨q, hq, hfa⟩ := ha
      by_cases hcq : q.2 ∈ cancelled
      · simp [hcq] at hfa
      · simp only [hcq, if_false] at hfa
        obtain rfl := Option.some.inj hfa
        rfl
  · intro openResult cid msg hmem
    cases openResult with
    | error e =>
      simp only [streamLogs, List.mem_singleton] at hmem
      rw [hmem]; rfl
    | ok bytes =>
      simp only [streamLogs, List.mem_map] at hmem
      obtain ⟨l, _, rfl⟩ := hmem
      rfl
  · intro openResult cid msg hmem
    cases openResult with
    | error e =>
      simp only [streamContainerStats, List.mem_singleton] at hmem
      rw [hmem]; rfl
    | ok samples =>
      simp only [streamContainerStats, List.mem_map] at hmem
      obtain ⟨l, _, rfl⟩ := hmem
      rfl

/-- Witness for C7_id_echo: a fresh metrics subscribe ack echoes its id. -/
theorem C7_id_echo_witness :
    (readLoopStep 7 1 { subs := [], hub := Option.some [], cancelled := [] }
        "subscribe" "req-9"
        (Option.some { stream := "metrics", containerID := "", intervalSeconds := 0 })).2.id =
      "req-9" :=
  (C7_id_echo.1 7 1 { subs := [], hub := Option.some [], cancelled := [] }
    "subscribe" "req-9"
    (Option.some { stream := "metrics", containerID := "", intervalSeconds := 0 })).1 (by decide)

/-- C8: a broadcast pass returns the subscriber set unchanged for every
input (so failed sends leave subscribers registered), attempts no
delivery to a subscriber record whose context is cancelled, and
produces no attempts when the subscriber set is empty. -/
theorem C8_broadcast_pure (subscribers : List (Nat × Nat)) (cancelled : List Nat)
    (m : RawEvent) :
    (EventHub.broadcast subscribers cancelled m).1 = subscribers ∧
    (∀ p ∈ subscribers, p.2 ∈ cancelled →
      ∀ a ∈ (EventHub.broadcast subscribers cancelled m).2, a.1 ≠ p) ∧
    (subscribers = [] → (EventHub.broadcast subscribers cancelled m).2 = []) := by
  refine ⟨?_, ?_, ?_⟩
  · unfold EventHub.broadcast
    split <;> rfl
  · intro p hp hpc a ha
    unfold EventHub.broadcast at ha
    split at ha
    · simp at ha
    · simp only [List.mem_filterMap] at ha
      obtain ⟨q, hq, hfa⟩ := ha
      by_cases hc : q.2 ∈ cancelled
      · simp [hc] at hfa
      · simp only [hc, if_false] at hfa
        obtain rfl := Option.some.inj hfa
        intro heq
        exact hc (by rw [show q.2 = p.2 from congrArg Prod.snd heq]; exact hpc)
  · rintro rfl
    unfold EventHub.broadcast
    split <;> simp

/-- Witness for C8_broadcast_pure: one pre-cancelled subscriber gets
zero delivery attempts and stays registered. -/
theorem C8_broadcast_pure_witness :
    (EventHub.broadcast [(1, 2)] [2]
        { action := "start", actorID := "abc", name := "n", image := "i",
          project := "p", time := 0 }).1 = [(1, 2)] ∧
    ∀ a ∈ (EventHub.broadcast [(1, 2)] [2]
        { action := "start", actorID := "abc", name := "n", image := "i",
          project := "p", time := 0 }).2, a.1 ≠ (1, 2) := by
  constructor
  · exact (C8_broadcast_pure [(1, 2)] [2]
      { action := "start", actorID := "abc", name := "n", image := "i",
        project := "p", time := 0 }).1
  · intro a ha
    exact (C8_broadcast_pure [(1, 2)] [2]
      { action := "start", actorID := "abc", name := "n", image := "i",
        project := "p", time := 0 }).2.1 (1, 2) (by decide) (by decide) a ha

/-- C9: when OnlineCPUs is reported as zero, calculateCPUPercent falls
back to the PercpuUsage list length, and to 1 when that list is empty
(the effective multiplier is max 1 length); in particular a sample with
non-zero deltas never computes to zero merely because the online-CPU
count is unreported. -/
theorem C9_online_cpus_fallback (s : StatsResponse) (h0 : s.cpuStats.onlineCPUs = 0) :
    (calculateCPUPercent s =
      if u64sub s.cpuStats.systemUsage s.preCPUStats.systemUsage = 0 then 0
      else ((u64sub s.cpuStats.cpuUsage.totalUsage s.preCPUStats.cpuUsage.totalUsage : Nat) : Rat) /
             ((u64sub s.cpuStats.systemUsage s.preCPUStats.systemUsage : Nat) : Rat) *
             ((max 1 s.cpuStats.cpuUsage.percpuUsage.length : Nat) : Rat) * 100) ∧
    (u64sub s.cpuStats.systemUsage s.preCPUStats.systemUsage ≠ 0 →
     u64sub s.cpuStats.cpuUsage.totalUsage s.preCPUStats.cpuUsage.totalUsage ≠ 0 →
     calculateCPUPercent s ≠ 0) := by
  have hmain : calculateCPUPercent s =
      if u64sub s.cpuStats.systemUsage s.preCPUStats.systemUsage = 0 then 0
      else ((u64sub s.cpuStats.cpuUsage.totalUsage s.preCPUStats.cpuUsage.totalUsage : Nat) : Rat) /
             ((u64sub s.cpuStats.systemUsage s.preCPUStats.systemUsage : Nat) : Rat) *
             ((max 1 s.cpuStats.cpuUsage.percpuUsage.length : Nat) : Rat) * 100 := by
    unfold calculateCPUPercent
    rw [h0]
    by_cases hs : u64sub s.cpuStats.systemUsage s.preCPUStats.systemUsage = 0
    · rw [if_pos hs, if_pos]
      left
      rw [hs]
      norm_num
    · rw [if_neg hs, if_neg]
      · by_cases hl : s.cpuStats.cpuUsage.percpuUsage.length = 0
        · simp only [hl, Nat.cast_zero, Nat.cast_ofNat, if_pos rfl]
          norm_num
        · have h1 : ((s.cpuStats.cpuUsage.percpuUsage.length : Nat) : Rat) ≠ 0 := by
            exact_mod_cast hl
          have hmx : max 1 s.cpuStats.cpuUsage.percpuUsage.length =
              s.cpuStats.cpuUsage.percpuUsage.length := by omega
          simp only [Nat.cast_zero, if_pos rfl, ite_true, if_neg h1, hmx]
      · push_neg
        refine ⟨?_, Nat.cast_nonneg _⟩
        have : (0 : Rat) < ((u64sub s.cpuStats.systemUsage s.preCPUStats.systemUsage : Nat) : Rat) := by
          exact_mod_cast Nat.pos_of_ne_zero hs
        linarith
  refine ⟨hmain, ?_⟩
  intro hs hc
  rw [hmain, if_neg hs]
  have h1 : (0 : Rat) < ((u64sub s.cpuStats.cpuUsage.totalUsage s.preCPUStats.cpuUsage.totalUsage : Nat) : Rat) := by
    exact_mod_cast Nat.pos_of_ne_zero hc
  have h2 : (0 : Rat) < ((u64sub s.cpuStats.systemUsage s.preCPUStats.systemUsage : Nat) : Rat) := by
    exact_mod_cast Nat.pos_of_ne_zero hs
  have h3 : (0 : Rat) < ((max 1 s.cpuStats.cpuUsage.percpuUsage.length : Nat) : Rat) := by
    have h4 : (1 : Nat) ≤ max 1 s.cpuStats.cpuUsage.percpuUsage.length := le_max_left _ _
    exact_mod_cast Nat.lt_of_lt_of_le Nat.zero_lt_one h4
  have h5 := mul_pos (mul_pos (div_pos h1 h2) h3) (by norm_num : (0 : Rat) < 100)
  linarith

/-- Witness for C9_online_cpus_fallback: unreported online-CPU count
with a two-core percpu list and non-zero deltas gives a non-zero
percentage. -/
theorem C9_online_cpus_fallback_witness :
    calculateCPUPercent
        { cpuStats := { cpuUsage := { totalUsage := 300, percpuUsage := [11, 12] },
                        systemUsage := 1000, onlineCPUs := 0 },
          preCPUStats := { cpuUsage := { totalUsage := 100, percpuUsage := [] },
                           systemUsage := 0, onlineCPUs := 0 },
          memoryStats := { usage := 0, limit := 0, stats := [] } } ≠ 0 :=
  (C9_online_cpus_fallback
    { cpuStats := { cpuUsage := { totalUsage := 300, percpuUsage := [11, 12] },
                    systemUsage := 1000, onlineCPUs := 0 },
      preCPUStats := { cpuUsage := { totalUsage := 100, percpuUsage := [] },
                       systemUsage := 0, onlineCPUs := 0 },
      memoryStats := { usage := 0, limit := 0, stats := [] } } rfl).2
    (by decide) (by decide)

/-- C10: on every reachable connection state, an unsubscribe for stream
logs with an empty (or absent) container_id derives the bare key
"logs", which subscribe never stores, so the reply is always the
NOT_SUBSCRIBED error (never MISSING_CONTAINER_ID) and the state is
unchanged. -/
theorem C10_unsubscribe_bare_logs (w : World) (hw : Reachable w) (msgId : String) (iv : Int) :
    handleUnsubscribe w msgId (Option.some { stream := "logs", containerID := "", intervalSeconds := iv }) =
      (w, errMsg "not subscribed to logs" "NOT_SUBSCRIBED") := by
  have hl := reachable_no_bare_logs hw
  unfold handleUnsubscribe
  dsimp only
  rw [if_neg (by simp)]
  rw [hl]
  rfl

/-- Witness for C10_unsubscribe_bare_logs at the initial state. -/
theorem C10_unsubscribe_bare_logs_witness :
    handleUnsubscribe { subs := [], hub := Option.some [], cancelled := [] } "m1"
        (Option.some { stream := "logs", containerID := "", intervalSeconds := 0 }) =
      ({ subs := [], hub := Option.some [], cancelled := [] },
       errMsg "not subscribed to logs" "NOT_SUBSCRIBED") :=
  C10_unsubscribe_bare_logs { subs := [], hub := Option.some [], cancelled := [] }
    (Reachable.init _ (Or.inl rfl)) "m1" 0

end HoLA
